import Mathlib

/-!
Verification development for the intrinsic construction framework of the
boa runtime, exemplified by the `ReferenceError` builtin
(src/boa/src/builtins/error/reference.rs).

The file shallowly embeds the visible source file together with the
framework primitives it calls.  Primitives whose code is not part of the
visible sources (object allocation, property storage, display-string
coercion, the construction protocol, the constructor builder) are modelled
from the specification; each such definition carries a doc comment that
starts with `Modelled from the spec:`.
-/

set_option autoImplicit false

/-- Modelled from the spec: script values handled by the framework.  The
visible code needs undefined, null, booleans, numbers (modelled as
integers, no claim depends on float semantics), strings and object
references into the realm heap. -/
inductive JsValue where
  | undefined
  | null
  | boolean (b : Bool)
  | integer (n : Int)
  | string (s : String)
  | object (r : Nat)
deriving DecidableEq, Repr

/-- Modelled from the spec: the internal data tag identifying the runtime
category of an object (the generic error category versus ordinary
objects); the code sets it with ObjectData::error(). -/
inductive ObjectData where
  | ordinary
  | error
deriving DecidableEq, Repr

instance {ε α : Type} [DecidableEq ε] [DecidableEq α] : DecidableEq (Except ε α) := fun a b =>
  match a, b with
  | Except.ok x, Except.ok y =>
    if h : x = y then Decidable.isTrue (congrArg Except.ok h)
    else Decidable.isFalse (fun hc => h (Except.ok.inj hc))
  | Except.error x, Except.error y =>
    if h : x = y then Decidable.isTrue (congrArg Except.error h)
    else Decidable.isFalse (fun hc => h (Except.error.inj hc))
  | Except.ok _, Except.error _ => Decidable.isFalse (fun hc => Except.noConfusion hc)
  | Except.error _, Except.ok _ => Decidable.isFalse (fun hc => Except.noConfusion hc)

/-- Modelled from the spec: reading an own property either yields a stored
data value or runs a script getter, which is abstracted as an oracle that
either throws a script failure or produces a value. -/
inductive PropertySlot where
  | data (value : JsValue)
  | accessor (read : Except JsValue JsValue)
deriving DecidableEq, Repr

/-- Modelled from the spec: an own property together with its
writable/enumerable/configurable attribute bits. -/
structure PropertyDescriptor where
  slot : PropertySlot
  writable : Bool
  enumerable : Bool
  configurable : Bool
deriving DecidableEq, Repr

/-- Modelled from the spec: the Attribute Model, three independent boolean
facets that can be combined by union. -/
structure Attribute where
  writable : Bool
  enumerable : Bool
  configurable : Bool
deriving DecidableEq, Repr

/-- Modelled from the spec: the WRITABLE attribute constant contributes the
writable bit. -/
def Attribute.WRITABLE : Attribute :=
  { writable := true, enumerable := false, configurable := false }

/-- Modelled from the spec: the NON_ENUMERABLE attribute constant leaves
the enumerable bit off. -/
def Attribute.NON_ENUMERABLE : Attribute :=
  { writable := false, enumerable := false, configurable := false }

/-- Modelled from the spec: the CONFIGURABLE attribute constant contributes
the configurable bit. -/
def Attribute.CONFIGURABLE : Attribute :=
  { writable := false, enumerable := false, configurable := true }

/-- Modelled from the spec: attribute combination is facet-wise union. -/
def Attribute.union (a b : Attribute) : Attribute :=
  { writable := a.writable || b.writable
  , enumerable := a.enumerable || b.enumerable
  , configurable := a.configurable || b.configurable }

/-- Modelled from the spec: a realm object.  It carries the internal
prototype link, the own properties, the internal data tag, whether the
object can be used as a constructor target, and its display-string
conversion oracle (which either throws a script failure or yields a
string). -/
structure JsObject where
  prototype : JsValue
  properties : List (String × PropertyDescriptor)
  data : ObjectData
  constructible : Bool
  conversion : Except JsValue String
deriving DecidableEq, Repr

/-- A freshly allocated ordinary object. -/
def JsObject.ordinary : JsObject :=
  { prototype := JsValue.null
  , properties := []
  , data := ObjectData.ordinary
  , constructible := false
  , conversion := Except.ok "[object Object]" }

instance : Inhabited JsObject := ⟨JsObject.ordinary⟩

/-- Modelled from the spec: an Intrinsic Entry of the Standard Objects
Registry, the canonical prototype/constructor pair of one intrinsic
kind, held as references into the realm heap. -/
structure IntrinsicEntry where
  prototype : Nat
  constructor : Nat
deriving DecidableEq, Repr

/-- Modelled from the spec: the Standard Objects Registry restricted to
the kinds the visible code touches: the root object kind, the base error
kind and the reference error kind. -/
structure StandardObjects where
  object_object : IntrinsicEntry
  error_object : IntrinsicEntry
  reference_error_object : IntrinsicEntry
deriving DecidableEq, Repr

/-- Modelled from the spec: the realm context.  The heap holds the realm
objects, indexed by reference; the registry is realm-owned.  The two last
fields are instrumentation used to state effect properties: the number of
display-string coercions performed and the ordered list of references
whose internal data tag was written. -/
structure Context where
  heap : List JsObject
  standardObjects : StandardObjects
  toStringCalls : Nat
  dataWrites : List Nat
deriving DecidableEq, Repr

/-- Replace the element at one index of a list by applying a function,
leaving the list unchanged when the index is out of range. -/
def listModify {α : Type} (f : α → α) : List α → Nat → List α
  | [], _ => []
  | a :: l, 0 => f a :: l
  | a :: l, n + 1 => a :: listModify f l n

/-- First property descriptor stored under a key. -/
def lookupProp : List (String × PropertyDescriptor) → String → Option PropertyDescriptor
  | [], _ => none
  | (k, d) :: rest, key => if k = key then some d else lookupProp rest key

/-- Store a descriptor under a key, replacing any existing binding. -/
def insertProp (props : List (String × PropertyDescriptor)) (key : String)
    (d : PropertyDescriptor) : List (String × PropertyDescriptor) :=
  props.filter (fun kv => !(kv.1 == key)) ++ [(key, d)]

/-- Heap lookup by reference. -/
def Context.getObj (ctx : Context) (r : Nat) : Option JsObject :=
  ctx.heap[r]?

/-- Heap update by reference, a no-op when the reference is out of range. -/
def Context.updateObj (ctx : Context) (r : Nat) (f : JsObject → JsObject) : Context :=
  { ctx with heap := listModify f ctx.heap r }

/-- Own property of a heap object. -/
def Context.ownProperty (ctx : Context) (r : Nat) (key : String) : Option PropertyDescriptor :=
  match ctx.getObj r with
  | some o => lookupProp o.properties key
  | none => none

/-- Modelled from the spec: the object allocation primitive.  It appends a
fresh ordinary object to the heap and returns its reference. -/
def Context.construct_object (ctx : Context) : Nat × Context :=
  (ctx.heap.length, { ctx with heap := ctx.heap ++ [JsObject.ordinary] })

/-- Modelled from the spec: setting the internal prototype link of an
instance object. -/
def Context.set_prototype_instance (ctx : Context) (r : Nat) (p : JsValue) : Context :=
  ctx.updateObj r (fun o => { o with prototype := p })

/-- Modelled from the spec: defining an own data property with declared
attribute bits, exactly the bits given. -/
def Context.defineProperty (ctx : Context) (r : Nat) (key : String) (value : JsValue)
    (attr : Attribute) : Context :=
  ctx.updateObj r (fun o =>
    let d : PropertyDescriptor :=
      { slot := PropertySlot.data value
      , writable := attr.writable
      , enumerable := attr.enumerable
      , configurable := attr.configurable }
    { o with properties := insertProp o.properties key d })

/-- Reading a property slot: a data slot yields its value, an accessor
slot consults its oracle. -/
def PropertySlot.read : PropertySlot → Except JsValue JsValue
  | PropertySlot.data v => Except.ok v
  | PropertySlot.accessor r => r

/-- Property lookup along the prototype chain, driven by fuel so that it is
total on arbitrary heaps; the spec guarantees real chains are finite and
acyclic, and the fuel used below always exceeds the heap size. -/
def Context.getPropertyValue (ctx : Context) : Nat → Nat → String → Except JsValue JsValue
  | 0, _, _ => Except.ok JsValue.undefined
  | fuel + 1, r, key =>
    match ctx.getObj r with
    | none => Except.ok JsValue.undefined
    | some o =>
      match lookupProp o.properties key with
      | some d => d.slot.read
      | none =>
        match o.prototype with
        | JsValue.object p => ctx.getPropertyValue fuel p key
        | _ => Except.ok JsValue.undefined

/-- The undefined test of script values. -/
def JsValue.is_undefined : JsValue → Bool
  | JsValue.undefined => true
  | _ => false

/-- Modelled from the spec: the display-string coercion of a value.  For
an object it consults the conversion oracle of the object, which may
throw a script failure. -/
def displayString (v : JsValue) (ctx : Context) : Except JsValue String :=
  match v with
  | JsValue.undefined => Except.ok "undefined"
  | JsValue.null => Except.ok "null"
  | JsValue.boolean b => Except.ok (if b then "true" else "false")
  | JsValue.integer n => Except.ok (toString n)
  | JsValue.string s => Except.ok s
  | JsValue.object r =>
    match ctx.getObj r with
    | some o => o.conversion
    | none => Except.error (JsValue.string "TypeError: conversion of a missing object")

/-- Modelled from the spec: the fallible coerce-to-display-string
operation the constructor calls; the instrumentation counter records that
a coercion was performed. -/
def JsValue.to_string (v : JsValue) (ctx : Context) : Except JsValue String × Context :=
  (displayString v ctx, { ctx with toStringCalls := ctx.toStringCalls + 1 })

/-- Modelled from the spec: the property-storage primitive used for the
instance message slot.  It stores the value as an own data property,
non-enumerable per spec convention (writable and configurable stay on);
the boolean mirrors the call-site strictness flag and does not affect an
ordinary write to an existing object. -/
def JsValue.set_field (v : JsValue) (key : String) (value : JsValue) (_throwFlag : Bool)
    (ctx : Context) : Except JsValue Context :=
  match v with
  | JsValue.object r =>
    if r < ctx.heap.length then
      Except.ok (ctx.updateObj r (fun o =>
        let d : PropertyDescriptor :=
          { slot := PropertySlot.data value
          , writable := true
          , enumerable := false
          , configurable := true }
        { o with properties := insertProp o.properties key d }))
    else Except.error (JsValue.string "TypeError: cannot set a field of a missing object")
  | _ => Except.error (JsValue.string "TypeError: cannot set a field of a primitive")

/-- Modelled from the spec: the internal-data-tagging primitive; the
instrumentation list records every reference whose tag is written. -/
def JsValue.set_data (v : JsValue) (d : ObjectData) (ctx : Context) : Context :=
  match v with
  | JsValue.object r =>
    let c := ctx.updateObj r (fun o => { o with data := d })
    { c with dataWrites := c.dataWrites ++ [r] }
  | _ => ctx

/-- Modelled from the spec: the Construction Protocol, prototype
resolution from new_target.  If new_target is not a constructible object
the default entry prototype is used; otherwise its prototype property is
read along the chain, a script failure of that read propagates verbatim,
an object result is used directly and any other result falls back to the
default entry prototype. -/
def get_prototype_from_constructor (new_target : JsValue)
    (default_kind : StandardObjects → IntrinsicEntry) (ctx : Context) : Except JsValue Nat :=
  match new_target with
  | JsValue.object r =>
    match ctx.getObj r with
    | some o =>
      if o.constructible then
        match ctx.getPropertyValue (ctx.heap.length + 1) r "prototype" with
        | Except.error e => Except.error e
        | Except.ok (JsValue.object p) => Except.ok p
        | Except.ok _ => Except.ok (default_kind ctx.standardObjects).prototype
      else Except.ok (default_kind ctx.standardObjects).prototype
    | none => Except.ok (default_kind ctx.standardObjects).prototype
  | _ => Except.ok (default_kind ctx.standardObjects).prototype

/-- The name the builtin reports (reference.rs, NAME). -/
def ReferenceError.NAME : String := "ReferenceError"

/-- The arity the builtin reports (reference.rs, LENGTH). -/
def ReferenceError.LENGTH : Nat := 1

/-- The default attribute set of the builtin (reference.rs, ATTRIBUTE):
WRITABLE union NON_ENUMERABLE union CONFIGURABLE. -/
def ReferenceError.ATTRIBUTE : Attribute :=
  (Attribute.WRITABLE.union Attribute.NON_ENUMERABLE).union Attribute.CONFIGURABLE

/-- Embedding of ReferenceError::constructor (reference.rs).  It resolves
the prototype from new_target with the base error kind as default,
allocates an object, sets the resolved prototype, stores the coerced
message when a non-undefined first argument is present, tags the object
with the error data tag and returns it; any script failure of prototype
resolution or coercion propagates. -/
def ReferenceError.constructor (new_target : JsValue) (args : List JsValue)
    (ctx : Context) : Except JsValue JsValue × Context :=
  match get_prototype_from_constructor new_target StandardObjects.error_object ctx with
  | Except.error e => (Except.error e, ctx)
  | Except.ok prototype =>
    let alloc := ctx.construct_object
    let obj := alloc.1
    let ctx1 := alloc.2
    let ctx2 := ctx1.set_prototype_instance obj (JsValue.object prototype)
    let this := JsValue.object obj
    let step : Except (JsValue × Context) Context :=
      match args.get? 0 with
      | some message =>
        if !message.is_undefined then
          match JsValue.to_string message ctx2 with
          | (Except.error e, ctx3) => Except.error (e, ctx3)
          | (Except.ok s, ctx3) =>
            match JsValue.set_field this "message" (JsValue.string s) false ctx3 with
            | Except.error e => Except.error (e, ctx3)
            | Except.ok ctx4 => Except.ok ctx4
        else Except.ok ctx2
      | none => Except.ok ctx2
    match step with
    | Except.error ec => (Except.error ec.1, ec.2)
    | Except.ok ctx4 =>
      let ctx5 := JsValue.set_data this ObjectData.error ctx4
      (Except.ok this, ctx5)

/-- Modelled from the spec: the Constructor Builder assembly state: the
target registry entry, name and arity metadata, the parent prototype the
built prototype will link to, and the declared own properties of the
prototype. -/
structure ConstructorBuilder where
  entry : IntrinsicEntry
  builderName : String
  builderLength : Nat
  parentPrototype : JsValue
  ownProperties : List (String × JsValue × Attribute)

/-- Modelled from the spec: starting the builder against a Standard
Objects entry; the body argument mirrors the native constructor function
passed at the call site. -/
def ConstructorBuilder.with_standard_object
    (_body : JsValue → List JsValue → Context → Except JsValue JsValue × Context)
    (entry : IntrinsicEntry) : ConstructorBuilder :=
  { entry := entry
  , builderName := ""
  , builderLength := 0
  , parentPrototype := JsValue.undefined
  , ownProperties := [] }

/-- Modelled from the spec: recording the reported name. -/
def ConstructorBuilder.name (b : ConstructorBuilder) (s : String) : ConstructorBuilder :=
  { b with builderName := s }

/-- Modelled from the spec: recording the reported arity. -/
def ConstructorBuilder.length (b : ConstructorBuilder) (n : Nat) : ConstructorBuilder :=
  { b with builderLength := n }

/-- Modelled from the spec: recording the parent prototype the built
prototype will link to. -/
def ConstructorBuilder.inherit (b : ConstructorBuilder) (p : JsValue) : ConstructorBuilder :=
  { b with parentPrototype := p }

/-- Modelled from the spec: declaring an own property of the prototype
with its declared attributes. -/
def ConstructorBuilder.property (b : ConstructorBuilder) (key : String) (value : JsValue)
    (attr : Attribute) : ConstructorBuilder :=
  { b with ownProperties := b.ownProperties ++ [(key, value, attr)] }

/-- Modelled from the spec: the build step of the Constructor Builder.
The prototype object of the target entry receives the parent link, the
declared own properties with exactly their declared attributes, and the
non-enumerable constructor back-reference; the constructor object
receives its own prototype property referencing the entry prototype,
name and arity metadata as own data properties (non-writable,
non-enumerable, configurable per convention) and becomes constructible.
The constructor reference is returned. -/
def ConstructorBuilder.build (b : ConstructorBuilder) (ctx : Context) : Nat × Context :=
  let protoRef := b.entry.prototype
  let ctorRef := b.entry.constructor
  let c1 := ctx.updateObj protoRef (fun o => { o with prototype := b.parentPrototype })
  let c2 := b.ownProperties.foldl
    (fun c nva => c.defineProperty protoRef nva.1 nva.2.1 nva.2.2) c1
  let c3 := c2.defineProperty protoRef "constructor" (JsValue.object ctorRef)
    { writable := true, enumerable := false, configurable := true }
  let c4 := c3.defineProperty ctorRef "prototype" (JsValue.object protoRef)
    { writable := false, enumerable := false, configurable := false }
  let c5 := c4.defineProperty ctorRef "name" (JsValue.string b.builderName)
    { writable := false, enumerable := false, configurable := true }
  let c6 := c5.defineProperty ctorRef "length" (JsValue.integer b.builderLength)
    { writable := false, enumerable := false, configurable := true }
  let c7 := c6.updateObj ctorRef (fun o => { o with constructible := true })
  (ctorRef, c7)

/-- Embedding of ReferenceError::init (reference.rs).  It reads the base
error prototype from the registry, builds the constructor against the
reference error entry with name, arity, the base error prototype as
parent, and the name and message own properties under the
writable/non-enumerable/configurable attribute set, and returns the
constructor value. -/
def ReferenceError.init (ctx : Context) : JsValue × Context :=
  let error_prototype := ctx.standardObjects.error_object.prototype
  let attr := (Attribute.WRITABLE.union Attribute.NON_ENUMERABLE).union
    Attribute.CONFIGURABLE
  let builder :=
    ((((((ConstructorBuilder.with_standard_object ReferenceError.constructor
            ctx.standardObjects.reference_error_object).name
          ReferenceError.NAME).length
        ReferenceError.LENGTH).inherit
      (JsValue.object error_prototype)).property
      "name" (JsValue.string ReferenceError.NAME) attr).property
      "message" (JsValue.string "") attr)
  let built := builder.build ctx
  (JsValue.object built.1, built.2)

/-- A value is valid for a context when every object reference it carries
points into the heap. -/
def validValue (ctx : Context) (v : JsValue) : Bool :=
  match v with
  | JsValue.object r => decide (r < ctx.heap.length)
  | _ => true

/-- Whether new_target yields an object-valued prototype under the
construction protocol: it is a constructible heap object and reading its
prototype property succeeds with an object. -/
def newTargetYieldsObjectPrototype (nt : JsValue) (ctx : Context) : Bool :=
  match nt with
  | JsValue.object r =>
    match ctx.getObj r with
    | some o =>
      o.constructible &&
        (match ctx.getPropertyValue (ctx.heap.length + 1) r "prototype" with
         | Except.ok (JsValue.object _) => true
         | _ => false)
    | none => false
  | _ => false

/-- A small bootstrap realm: references 0 and 1 are the root object
prototype and constructor, 2 and 3 the base error prototype and
constructor, 4 and 5 the reference error prototype and constructor.  The
next fresh reference is 6. -/
def ctx0 : Context :=
  { heap :=
      [ JsObject.ordinary
      , { JsObject.ordinary with constructible := true }
      , { JsObject.ordinary with prototype := JsValue.object 0 }
      , { JsObject.ordinary with constructible := true }
      , { JsObject.ordinary with prototype := JsValue.object 0 }
      , { JsObject.ordinary with constructible := true } ]
  , standardObjects :=
      { object_object := { prototype := 0, constructor := 1 }
      , error_object := { prototype := 2, constructor := 3 }
      , reference_error_object := { prototype := 4, constructor := 5 } }
  , toStringCalls := 0
  , dataWrites := [] }

/-- The bootstrap realm extended with script-made objects: reference 6 is
a subclass constructor whose prototype getter throws, reference 7 a
subclass constructor whose prototype property is the object 8, reference
8 the subclass prototype, and reference 9 an object whose display-string
conversion throws.  The next fresh reference is 10. -/
def ctxSub : Context :=
  { ctx0 with heap := ctx0.heap ++
      [ { JsObject.ordinary with
            constructible := true
          , properties :=
              [("prototype",
                { slot := PropertySlot.accessor (Except.error (JsValue.string "getter boom"))
                , writable := false, enumerable := false, configurable := true })] }
      , { JsObject.ordinary with
            constructible := true
          , properties :=
              [("prototype",
                { slot := PropertySlot.data (JsValue.object 8)
                , writable := false, enumerable := false, configurable := false })] }
      , { JsObject.ordinary with prototype := JsValue.object 4 }
      , { JsObject.ordinary with conversion := Except.error (JsValue.string "toString boom") } ] }

/-- The context reached inside the constructor after allocating the
instance and setting its resolved prototype, used to phrase the
intermediate states of the construction. -/
def midCtx (ctx : Context) (p : Nat) : Context :=
  (ctx.construct_object.2).set_prototype_instance ctx.construct_object.1 (JsValue.object p)

theorem listModify_length {α : Type} (f : α → α) :
    ∀ (l : List α) (r : Nat), (listModify f l r).length = l.length := by
  intro l
  induction l with
  | nil => intro r; rfl
  | cons a t ih =>
    intro r
    cases r with
    | zero => rfl
    | succ n => simp [listModify, ih]

theorem listModify_get_self {α : Type} (f : α → α) :
    ∀ (l : List α) (r : Nat), (listModify f l r)[r]? = (l[r]?).map f := by
  intro l
  induction l with
  | nil => intro r; rfl
  | cons a t ih =>
    intro r
    cases r with
    | zero => simp [listModify]
    | succ n => simpa [listModify] using ih n

theorem listModify_get_ne {α : Type} (f : α → α) :
    ∀ (l : List α) (r s : Nat), r ≠ s → (listModify f l r)[s]? = l[s]? := by
  intro l
  induction l with
  | nil => intro r s _; rfl
  | cons a t ih =>
    intro r s hrs
    cases r with
    | zero =>
      cases s with
      | zero => exact absurd rfl hrs
      | succ m => simp [listModify]
    | succ n =>
      cases s with
      | zero => simp [listModify]
      | succ m =>
        have : n ≠ m := fun h => hrs (by rw [h])
        simpa [listModify] using ih n m this

theorem listGet_append_lt {α : Type} (l l2 : List α) (r : Nat) (h : r < l.length) :
    (l ++ l2)[r]? = l[r]? := by
  simp [List.getElem?_append, h]

theorem listGet_append_len {α : Type} (l : List α) (x : α) :
    (l ++ [x])[l.length]? = some x := by
  simp

theorem lookup_filter_append (key : String) (d : PropertyDescriptor) :
    ∀ l : List (String × PropertyDescriptor),
      lookupProp (l.filter (fun kv => !(kv.1 == key)) ++ [(key, d)]) key = some d := by
  intro l
  induction l with
  | nil => simp [lookupProp]
  | cons kv rest ih =>
    by_cases hk : kv.1 = key
    · simpa [List.filter_cons, hk] using ih
    · simpa [List.filter_cons, hk, lookupProp] using ih

theorem lookup_insert_self (props : List (String × PropertyDescriptor)) (key : String)
    (d : PropertyDescriptor) : lookupProp (insertProp props key d) key = some d := by
  simpa [insertProp] using lookup_filter_append key d props

theorem lookup_filter_append_ne (key key2 : String) (d : PropertyDescriptor)
    (h : key ≠ key2) :
    ∀ l : List (String × PropertyDescriptor),
      lookupProp (l.filter (fun kv => !(kv.1 == key)) ++ [(key, d)]) key2
        = lookupProp l key2 := by
  intro l
  induction l with
  | nil => simp [lookupProp, h]
  | cons kv rest ih =>
    have hne2 : key2 ≠ key := Ne.symm h
    by_cases hk : kv.1 = key
    · have hne : kv.1 ≠ key2 := by rw [hk]; exact h
      simp [List.filter_cons, hk, lookupProp, hne, h, ih]
    · by_cases hk2 : kv.1 = key2
      · simp [List.filter_cons, hk, lookupProp, hk2, hne2]
      · simp [List.filter_cons, hk, lookupProp, hk2, ih]

theorem lookup_insert_ne (props : List (String × PropertyDescriptor)) (key key2 : String)
    (d : PropertyDescriptor) (h : key ≠ key2) :
    lookupProp (insertProp props key d) key2 = lookupProp props key2 := by
  simpa [insertProp] using lookup_filter_append_ne key key2 d h props

theorem getObj_updateObj_self (ctx : Context) (r : Nat) (f : JsObject → JsObject) :
    (ctx.updateObj r f).getObj r = (ctx.getObj r).map f := by
  simp [Context.updateObj, Context.getObj, listModify_get_self]

theorem getObj_updateObj_ne (ctx : Context) (r s : Nat) (f : JsObject → JsObject)
    (h : r ≠ s) : (ctx.updateObj r f).getObj s = ctx.getObj s := by
  simp [Context.updateObj, Context.getObj, listModify_get_ne f ctx.heap r s h]

theorem heapLength_updateObj (ctx : Context) (r : Nat) (f : JsObject → JsObject) :
    (ctx.updateObj r f).heap.length = ctx.heap.length := by
  simp [Context.updateObj, listModify_length]

theorem getObj_construct_lt (ctx : Context) (r : Nat) (h : r < ctx.heap.length) :
    (ctx.construct_object.2).getObj r = ctx.getObj r := by
  simp [Context.construct_object, Context.getObj, listGet_append_lt _ _ _ h]

theorem getObj_construct_fresh (ctx : Context) :
    (ctx.construct_object.2).getObj ctx.heap.length = some JsObject.ordinary := by
  simp [Context.construct_object, Context.getObj]

theorem displayString_congr (v : JsValue) (ctxA ctxB : Context)
    (h : ∀ r, v = JsValue.object r → ctxA.getObj r = ctxB.getObj r) :
    displayString v ctxA = displayString v ctxB := by
  cases v with
  | object r => simp only [displayString]; rw [h r rfl]
  | undefined => rfl
  | null => rfl
  | boolean b => rfl
  | integer n => rfl
  | string s => rfl

theorem midCtx_getObj_fresh (ctx : Context) (p : Nat) :
    (midCtx ctx p).getObj ctx.heap.length
      = some ({ JsObject.ordinary with prototype := JsValue.object p }) := by
  have h1 : ctx.construct_object.1 = ctx.heap.length := rfl
  rw [midCtx, Context.set_prototype_instance, h1, getObj_updateObj_self,
    getObj_construct_fresh]
  rfl

theorem midCtx_getObj_lt (ctx : Context) (p : Nat) (r : Nat) (h : r < ctx.heap.length) :
    (midCtx ctx p).getObj r = ctx.getObj r := by
  have hne : ctx.heap.length ≠ r := Nat.ne_of_gt h
  have h1 : ctx.construct_object.1 = ctx.heap.length := rfl
  rw [midCtx, Context.set_prototype_instance, h1, getObj_updateObj_ne _ _ _ _ hne,
    getObj_construct_lt _ _ h]

theorem midCtx_heapLength (ctx : Context) (p : Nat) :
    (midCtx ctx p).heap.length = ctx.heap.length + 1 := by
  rw [midCtx, Context.set_prototype_instance]
  rw [heapLength_updateObj]
  simp [Context.construct_object]

theorem midCtx_dataWrites (ctx : Context) (p : Nat) :
    (midCtx ctx p).dataWrites = ctx.dataWrites := rfl

theorem midCtx_toStringCalls (ctx : Context) (p : Nat) :
    (midCtx ctx p).toStringCalls = ctx.toStringCalls := rfl

theorem set_data_getObj_self (ctx : Context) (r : Nat) (d : ObjectData) :
    (JsValue.set_data (JsValue.object r) d ctx).getObj r
      = (ctx.getObj r).map (fun o => { o with data := d }) := by
  simp only [JsValue.set_data, Context.getObj]
  exact getObj_updateObj_self ctx r _

theorem set_data_dataWrites (ctx : Context) (r : Nat) (d : ObjectData) :
    (JsValue.set_data (JsValue.object r) d ctx).dataWrites = ctx.dataWrites ++ [r] := rfl

/-- Prototype resolution with the base error default, when new_target does
not yield an object-valued prototype: the result is the base error entry
prototype, unless the prototype read threw, in which case the failure
propagates. -/
theorem resolve_not_yields (nt : JsValue) (ctx : Context)
    (hny : newTargetYieldsObjectPrototype nt ctx = false) :
    get_prototype_from_constructor nt StandardObjects.error_object ctx
        = Except.ok ctx.standardObjects.error_object.prototype ∨
      ∃ e, get_prototype_from_constructor nt StandardObjects.error_object ctx
        = Except.error e := by
  cases nt with
  | object r =>
    unfold newTargetYieldsObjectPrototype at hny
    unfold get_prototype_from_constructor
    dsimp only at hny ⊢
    cases hobj : ctx.getObj r with
    | none => exact Or.inl (by rfl)
    | some o =>
      rw [hobj] at hny
      cases hcon : o.constructible with
      | false => exact Or.inl (by simp [hcon])
      | true =>
        simp only [hcon, Bool.true_and] at hny
        cases hpv : ctx.getPropertyValue (ctx.heap.length + 1) r "prototype" with
        | error e => exact Or.inr ⟨e, by simp [hcon, hpv]⟩
        | ok val =>
          rw [hpv] at hny
          cases val with
          | object q => exact absurd hny (by simp)
          | undefined => exact Or.inl (by simp [hcon, hpv])
          | null => exact Or.inl (by simp [hcon, hpv])
          | boolean b => exact Or.inl (by simp [hcon, hpv])
          | integer n => exact Or.inl (by simp [hcon, hpv])
          | string s => exact Or.inl (by simp [hcon, hpv])
  | undefined => exact Or.inl rfl
  | null => exact Or.inl rfl
  | boolean b => exact Or.inl rfl
  | integer n => exact Or.inl rfl
  | string s => exact Or.inl rfl

/-- Constructor evaluation, failing prototype resolution: the failure and
the untouched context are returned. -/
theorem constructor_resolve_err (nt : JsValue) (args : List JsValue) (ctx : Context)
    (e : JsValue)
    (hres : get_prototype_from_constructor nt StandardObjects.error_object ctx
      = Except.error e) :
    ReferenceError.constructor nt args ctx = (Except.error e, ctx) := by
  unfold ReferenceError.constructor
  rw [hres]

/-- Constructor evaluation, no first argument: the tagged fresh instance
over the mid context is returned. -/
theorem constructor_eval_none (nt : JsValue) (args : List JsValue) (ctx : Context)
    (p : Nat)
    (hres : get_prototype_from_constructor nt StandardObjects.error_object ctx
      = Except.ok p)
    (hargs : args.get? 0 = none) :
    ReferenceError.constructor nt args ctx
      = (Except.ok (JsValue.object ctx.heap.length),
         JsValue.set_data (JsValue.object ctx.heap.length) ObjectData.error
           (midCtx ctx p)) := by
  unfold ReferenceError.constructor
  rw [hres]
  simp only [hargs, midCtx]
  rfl

/-- Constructor evaluation, undefined first argument: identical to the
no-argument evaluation. -/
theorem constructor_eval_undef (nt : JsValue) (args : List JsValue) (ctx : Context)
    (p : Nat) (msg : JsValue)
    (hres : get_prototype_from_constructor nt StandardObjects.error_object ctx
      = Except.ok p)
    (hargs : args.get? 0 = some msg)
    (hu : msg.is_undefined = true) :
    ReferenceError.constructor nt args ctx
      = (Except.ok (JsValue.object ctx.heap.length),
         JsValue.set_data (JsValue.object ctx.heap.length) ObjectData.error
           (midCtx ctx p)) := by
  unfold ReferenceError.constructor
  rw [hres]
  simp only [hargs, hu, midCtx, Bool.not_true, Bool.false_eq_true, if_false]
  rfl

/-- Constructor evaluation, coercion failure on the first argument: the
failure is returned over the mid context with the coercion counted. -/
theorem constructor_eval_msg_err (nt : JsValue) (args : List JsValue) (ctx : Context)
    (p : Nat) (msg : JsValue) (e : JsValue)
    (hres : get_prototype_from_constructor nt StandardObjects.error_object ctx
      = Except.ok p)
    (hargs : args.get? 0 = some msg)
    (hu : msg.is_undefined = false)
    (hds : displayString msg (midCtx ctx p) = Except.error e) :
    ReferenceError.constructor nt args ctx
      = (Except.error e,
         { midCtx ctx p with toStringCalls := (midCtx ctx p).toStringCalls + 1 }) := by
  unfold ReferenceError.constructor
  rw [hres]
  simp only [hargs, hu, midCtx, JsValue.to_string, Bool.not_false, if_true] at hds ⊢
  simp only [hds]

/-- Constructor evaluation, successful coercion of the first argument:
the instance carries the non-enumerable message property and the error
tag. -/
theorem constructor_eval_msg_ok (nt : JsValue) (args : List JsValue) (ctx : Context)
    (p : Nat) (msg : JsValue) (s : String)
    (hres : get_prototype_from_constructor nt StandardObjects.error_object ctx
      = Except.ok p)
    (hargs : args.get? 0 = some msg)
    (hu : msg.is_undefined = false)
    (hds : displayString msg (midCtx ctx p) = Except.ok s) :
    ReferenceError.constructor nt args ctx
      = (Except.ok (JsValue.object ctx.heap.length),
         JsValue.set_data (JsValue.object ctx.heap.length) ObjectData.error
           (({ midCtx ctx p with
                toStringCalls := (midCtx ctx p).toStringCalls + 1 }).updateObj
             ctx.heap.length (fun o =>
               { o with properties := insertProp o.properties "message" ⟨PropertySlot.data (JsValue.string s), true, false, true⟩ }))) := by
  unfold ReferenceError.constructor
  rw [hres]
  simp only [hargs, hu, midCtx, JsValue.to_string, Bool.not_false, if_true] at hds ⊢
  simp only [hds, JsValue.set_field]
  rw [show ctx.construct_object.1 = ctx.heap.length from rfl]
  have hlt : ctx.heap.length
      < (ctx.construct_object.2.set_prototype_instance ctx.heap.length
          (JsValue.object p)).heap.length := by
    rw [Context.set_prototype_instance, heapLength_updateObj]
    simp [Context.construct_object]
  rw [if_pos hlt]

theorem getObj_bumpCalls (ctx : Context) (n : Nat) (r : Nat) :
    ({ ctx with toStringCalls := n }).getObj r = ctx.getObj r := rfl

theorem getObj_defineProperty_ne (ctx : Context) (r s : Nat) (key : String)
    (value : JsValue) (attr : Attribute) (h : r ≠ s) :
    (ctx.defineProperty r key value attr).getObj s = ctx.getObj s :=
  getObj_updateObj_ne _ _ _ _ h

theorem getObj_defineProperty_self (ctx : Context) (r : Nat) (key : String)
    (value : JsValue) (attr : Attribute) :
    (ctx.defineProperty r key value attr).getObj r
      = (ctx.getObj r).map (fun o =>
          { o with properties := insertProp o.properties key ⟨PropertySlot.data value, attr.writable, attr.enumerable, attr.configurable⟩ }) :=
  getObj_updateObj_self _ _ _

/-- Inversion of a successful construction: resolution succeeded with
some prototype, the result is the fresh instance reference, and the
final heap holds it with the resolved prototype, the error tag, and
exactly one new data-tag write. -/
theorem constructor_ok_inv (nt : JsValue) (args : List JsValue) (ctx : Context)
    (v : JsValue) (ctxf : Context)
    (hok : ReferenceError.constructor nt args ctx = (Except.ok v, ctxf)) :
    ∃ p, get_prototype_from_constructor nt StandardObjects.error_object ctx = Except.ok p ∧
      v = JsValue.object ctx.heap.length ∧
      ∃ o, ctxf.getObj ctx.heap.length = some o ∧
        o.prototype = JsValue.object p ∧
        o.data = ObjectData.error ∧
        ctxf.dataWrites = ctx.dataWrites ++ [ctx.heap.length] := by
  cases hres : get_prototype_from_constructor nt StandardObjects.error_object ctx with
  | error e =>
    rw [constructor_resolve_err nt args ctx e hres] at hok
    rw [Prod.mk.injEq] at hok
    exact absurd hok.1 (by simp)
  | ok p =>
    refine ⟨p, rfl, ?_⟩
    cases hargs : args.get? 0 with
    | none =>
      rw [constructor_eval_none nt args ctx p hres hargs] at hok
      rw [Prod.mk.injEq] at hok
      obtain ⟨h1, h2⟩ := hok
      refine ⟨(Except.ok.inj h1).symm, ?_⟩
      refine ⟨{ JsObject.ordinary with prototype := JsValue.object p, data := ObjectData.error }, ?_, rfl, rfl, ?_⟩
      · rw [← h2, set_data_getObj_self, midCtx_getObj_fresh]
        rfl
      · rw [← h2, set_data_dataWrites, midCtx_dataWrites]
    | some msg =>
      cases hu : msg.is_undefined with
      | true =>
        rw [constructor_eval_undef nt args ctx p msg hres hargs hu] at hok
        rw [Prod.mk.injEq] at hok
        obtain ⟨h1, h2⟩ := hok
        refine ⟨(Except.ok.inj h1).symm, ?_⟩
        refine ⟨{ JsObject.ordinary with prototype := JsValue.object p, data := ObjectData.error }, ?_, rfl, rfl, ?_⟩
        · rw [← h2, set_data_getObj_self, midCtx_getObj_fresh]
          rfl
        · rw [← h2, set_data_dataWrites, midCtx_dataWrites]
      | false =>
        cases hds : displayString msg (midCtx ctx p) with
        | error e =>
          rw [constructor_eval_msg_err nt args ctx p msg e hres hargs hu hds] at hok
          rw [Prod.mk.injEq] at hok
          exact absurd hok.1 (by simp)
        | ok s =>
          rw [constructor_eval_msg_ok nt args ctx p msg s hres hargs hu hds] at hok
          rw [Prod.mk.injEq] at hok
          obtain ⟨h1, h2⟩ := hok
          refine ⟨(Except.ok.inj h1).symm, ?_⟩
          refine ⟨{ JsObject.ordinary with prototype := JsValue.object p, properties := insertProp [] "message" ⟨PropertySlot.data (JsValue.string s), true, false, true⟩, data := ObjectData.error }, ?_, rfl, rfl, ?_⟩
          · rw [← h2, set_data_getObj_self, getObj_updateObj_self, getObj_bumpCalls,
              midCtx_getObj_fresh]
            rfl
          · rw [← h2, set_data_dataWrites]
            rfl

/-- Full evaluation of init on an arbitrary realm: the returned value is
the registry constructor reference and the final context is the explicit
chain of the build steps. -/
theorem init_eval (ctx : Context) :
    ReferenceError.init ctx
      = (JsValue.object ctx.standardObjects.reference_error_object.constructor,
         (((((((ctx.updateObj ctx.standardObjects.reference_error_object.prototype
               (fun o => { o with prototype := JsValue.object ctx.standardObjects.error_object.prototype })).defineProperty
             ctx.standardObjects.reference_error_object.prototype "name" (JsValue.string "ReferenceError") ⟨true, false, true⟩).defineProperty
             ctx.standardObjects.reference_error_object.prototype "message" (JsValue.string "") ⟨true, false, true⟩).defineProperty
             ctx.standardObjects.reference_error_object.prototype "constructor" (JsValue.object ctx.standardObjects.reference_error_object.constructor) ⟨true, false, true⟩).defineProperty
             ctx.standardObjects.reference_error_object.constructor "prototype" (JsValue.object ctx.standardObjects.reference_error_object.prototype) ⟨false, false, false⟩).defineProperty
             ctx.standardObjects.reference_error_object.constructor "name" (JsValue.string "ReferenceError") ⟨false, false, true⟩).defineProperty
             ctx.standardObjects.reference_error_object.constructor "length" (JsValue.integer 1) ⟨false, false, true⟩).updateObj
             ctx.standardObjects.reference_error_object.constructor
             (fun o => { o with constructible := true })) := rfl

/-- Claim C1 is false as stated: with new_target undefined the constructor
falls back to the base error entry prototype of the registry, not to the
reference error entry; in the bootstrap realm the two differ and the
built instance carries the base error prototype. -/
theorem refErrC1_counterexample :
    (ReferenceError.constructor JsValue.undefined [] ctx0).1
        = Except.ok (JsValue.object 6) ∧
      (((ReferenceError.constructor JsValue.undefined [] ctx0).2).getObj 6).map
          (fun o => o.prototype)
        = some (JsValue.object ctx0.standardObjects.error_object.prototype) ∧
      ctx0.standardObjects.error_object.prototype
        ≠ ctx0.standardObjects.reference_error_object.prototype := by
  exact ⟨rfl, rfl, by decide⟩

/-- Claim C1 (amended): when ReferenceError::constructor builds an
instance, it resolves the prototype via the Construction Protocol with
the base error entry of the Standard Objects Registry as the default
fallback, for every invocation whose new_target does not yield an
object-valued prototype property. -/
theorem refErrC1_fallback_base_error (nt : JsValue) (args : List JsValue) (ctx : Context)
    (v : JsValue) (ctxf : Context)
    (hny : newTargetYieldsObjectPrototype nt ctx = false)
    (hok : ReferenceError.constructor nt args ctx = (Except.ok v, ctxf)) :
    v = JsValue.object ctx.heap.length ∧
      (ctxf.getObj ctx.heap.length).map (fun o => o.prototype)
        = some (JsValue.object ctx.standardObjects.error_object.prototype) := by
  obtain ⟨p, hres, hv, o, hgo, hproto, hdata, hdw⟩ :=
    constructor_ok_inv nt args ctx v ctxf hok
  rcases resolve_not_yields nt ctx hny with hdef | ⟨e, herr⟩
  · rw [hres] at hdef
    have hp : p = ctx.standardObjects.error_object.prototype := Except.ok.inj hdef
    refine ⟨hv, ?_⟩
    rw [hgo]
    simp [hproto, hp]
  · rw [herr] at hres
    exact absurd hres (by simp)

theorem refErrC1_fallback_base_error_witness :
    JsValue.object 6 = JsValue.object ctx0.heap.length ∧
      (((ReferenceError.constructor JsValue.undefined [] ctx0).2).getObj
          ctx0.heap.length).map (fun o => o.prototype)
        = some (JsValue.object ctx0.standardObjects.error_object.prototype) :=
  refErrC1_fallback_base_error JsValue.undefined [] ctx0 (JsValue.object 6)
    (ReferenceError.constructor JsValue.undefined [] ctx0).2 rfl rfl

/-- Claim C4: if reading the prototype property off new_target raises a
script failure, the constructor returns that same failure and the context
is untouched: no instance is allocated, no property written, no data tag
set. -/
theorem refErrC4_prototype_failure (nt : JsValue) (args : List JsValue) (ctx : Context)
    (e : JsValue)
    (h : get_prototype_from_constructor nt StandardObjects.error_object ctx
      = Except.error e) :
    ReferenceError.constructor nt args ctx = (Except.error e, ctx) :=
  constructor_resolve_err nt args ctx e h

theorem refErrC4_prototype_failure_witness :
    ReferenceError.constructor (JsValue.object 6) [] ctxSub
      = (Except.error (JsValue.string "getter boom"), ctxSub) :=
  refErrC4_prototype_failure (JsValue.object 6) [] ctxSub
    (JsValue.string "getter boom") rfl

/-- Claim C5: if coercing the first argument to a display string raises a
script failure, the constructor returns that failure unchanged. -/
theorem refErrC5_coercion_failure (nt : JsValue) (msg : JsValue) (rest : List JsValue)
    (ctx : Context) (p : Nat) (e : JsValue)
    (hres : get_prototype_from_constructor nt StandardObjects.error_object ctx
      = Except.ok p)
    (hund : msg.is_undefined = false)
    (hds : displayString msg (midCtx ctx p) = Except.error e) :
    (ReferenceError.constructor nt (msg :: rest) ctx).1 = Except.error e := by
  rw [constructor_eval_msg_err nt (msg :: rest) ctx p msg e hres rfl hund hds]

theorem refErrC5_coercion_failure_witness :
    (ReferenceError.constructor JsValue.undefined [JsValue.object 9] ctxSub).1
      = Except.error (JsValue.string "toString boom") :=
  refErrC5_coercion_failure JsValue.undefined (JsValue.object 9) [] ctxSub 2
    (JsValue.string "toString boom") rfl rfl rfl

/-- Claim C6: every successfully returned instance carries the internal
error data tag and its reference is appended exactly once to the data
writes of the construction, whatever new_target invoked the
constructor. -/
theorem refErrC6_error_tag (nt : JsValue) (args : List JsValue) (ctx : Context)
    (v : JsValue) (ctxf : Context)
    (hok : ReferenceError.constructor nt args ctx = (Except.ok v, ctxf)) :
    ∃ r, v = JsValue.object r ∧
      (ctxf.getObj r).map (fun o => o.data) = some ObjectData.error ∧
      ctxf.dataWrites = ctx.dataWrites ++ [r] := by
  obtain ⟨p, hres, hv, o, hgo, hproto, hdata, hdw⟩ :=
    constructor_ok_inv nt args ctx v ctxf hok
  refine ⟨ctx.heap.length, hv, ?_, hdw⟩
  rw [hgo]
  simp [hdata]

theorem refErrC6_error_tag_witness :
    ∃ r, JsValue.object 10 = JsValue.object r ∧
      (((ReferenceError.constructor (JsValue.object 7) [] ctxSub).2).getObj r).map
          (fun o => o.data)
        = some ObjectData.error ∧
      ((ReferenceError.constructor (JsValue.object 7) [] ctxSub).2).dataWrites
        = ctxSub.dataWrites ++ [r] :=
  refErrC6_error_tag (JsValue.object 7) [] ctxSub (JsValue.object 10)
    (ReferenceError.constructor (JsValue.object 7) [] ctxSub).2 rfl

/-- Claim C10: the constructor reads only the first element of the
argument list; two invocations in the same state whose argument lists
agree on their first element produce identical results. -/
theorem refErrC10_only_first_argument (nt : JsValue) (args args2 : List JsValue)
    (ctx : Context) (h : args.get? 0 = args2.get? 0) :
    ReferenceError.constructor nt args ctx = ReferenceError.constructor nt args2 ctx := by
  unfold ReferenceError.constructor
  rw [h]

theorem refErrC10_only_first_argument_witness :
    ReferenceError.constructor JsValue.undefined
        [JsValue.string "a", JsValue.integer 1, JsValue.null] ctx0
      = ReferenceError.constructor JsValue.undefined [JsValue.string "a"] ctx0 :=
  refErrC10_only_first_argument JsValue.undefined
    [JsValue.string "a", JsValue.integer 1, JsValue.null] [JsValue.string "a"] ctx0 rfl

/-- Claim C3: an explicit undefined first argument behaves exactly like
no argument: same result and final state, the display-string coercion is
never invoked, and the instance gets no own message property. -/
theorem refErrC3_undefined_first_argument (nt : JsValue) (rest : List JsValue)
    (ctx : Context) :
    ReferenceError.constructor nt (JsValue.undefined :: rest) ctx
        = ReferenceError.constructor nt [] ctx ∧
      ((ReferenceError.constructor nt (JsValue.undefined :: rest) ctx).2).toStringCalls
        = ctx.toStringCalls ∧
      ∀ r ctxf, ReferenceError.constructor nt (JsValue.undefined :: rest) ctx
          = (Except.ok (JsValue.object r), ctxf) →
        ctxf.ownProperty r "message" = none := by
  cases hres : get_prototype_from_constructor nt StandardObjects.error_object ctx with
  | error e =>
    have hA := constructor_resolve_err nt (JsValue.undefined :: rest) ctx e hres
    have hB := constructor_resolve_err nt [] ctx e hres
    refine ⟨by rw [hA, hB], by rw [hA], ?_⟩
    intro r ctxf h
    rw [hA, Prod.mk.injEq] at h
    exact absurd h.1 (by simp)
  | ok p =>
    have hA := constructor_eval_undef nt (JsValue.undefined :: rest) ctx p
      JsValue.undefined hres rfl rfl
    have hB := constructor_eval_none nt [] ctx p hres rfl
    refine ⟨by rw [hA, hB], by rw [hA]; rfl, ?_⟩
    intro r ctxf h
    rw [hA, Prod.mk.injEq] at h
    obtain ⟨h1, h2⟩ := h
    have hr : ctx.heap.length = r := JsValue.object.inj (Except.ok.inj h1)
    rw [← h2, ← hr]
    unfold Context.ownProperty
    rw [set_data_getObj_self, midCtx_getObj_fresh]
    rfl

theorem refErrC3_undefined_first_argument_witness :
    ReferenceError.constructor JsValue.undefined [JsValue.undefined] ctx0
        = ReferenceError.constructor JsValue.undefined [] ctx0 ∧
      ((ReferenceError.constructor JsValue.undefined [JsValue.undefined] ctx0).2).toStringCalls
        = ctx0.toStringCalls ∧
      ((ReferenceError.constructor JsValue.undefined [JsValue.undefined] ctx0).2).ownProperty
          6 "message"
        = none := by
  obtain ⟨h1, h2, h3⟩ := refErrC3_undefined_first_argument JsValue.undefined [] ctx0
  exact ⟨h1, h2,
    h3 6 (ReferenceError.constructor JsValue.undefined [JsValue.undefined] ctx0).2 rfl⟩

/-- Claim C2: a successful construction with a non-undefined first
argument stores its display-string coercion as the instance's own
message property, as a non-enumerable own data property. -/
theorem refErrC2_message_property (nt : JsValue) (msg : JsValue) (rest : List JsValue)
    (ctx : Context) (v : JsValue) (ctxf : Context)
    (hund : msg.is_undefined = false)
    (hval : validValue ctx msg = true)
    (hok : ReferenceError.constructor nt (msg :: rest) ctx = (Except.ok v, ctxf)) :
    ∃ s, displayString msg ctx = Except.ok s ∧
      v = JsValue.object ctx.heap.length ∧
      ctxf.ownProperty ctx.heap.length "message"
        = some ⟨PropertySlot.data (JsValue.string s), true, false, true⟩ := by
  cases hres : get_prototype_from_constructor nt StandardObjects.error_object ctx with
  | error e =>
    rw [constructor_resolve_err nt (msg :: rest) ctx e hres, Prod.mk.injEq] at hok
    exact absurd hok.1 (by simp)
  | ok p =>
    have hstable : displayString msg (midCtx ctx p) = displayString msg ctx := by
      apply displayString_congr
      intro r hr
      apply midCtx_getObj_lt
      rw [hr] at hval
      simpa [validValue] using hval
    cases hds : displayString msg (midCtx ctx p) with
    | error e =>
      rw [constructor_eval_msg_err nt (msg :: rest) ctx p msg e hres rfl hund hds,
        Prod.mk.injEq] at hok
      exact absurd hok.1 (by simp)
    | ok s =>
      rw [constructor_eval_msg_ok nt (msg :: rest) ctx p msg s hres rfl hund hds,
        Prod.mk.injEq] at hok
      obtain ⟨h1, h2⟩ := hok
      refine ⟨s, ?_, (Except.ok.inj h1).symm, ?_⟩
      · rw [← hstable, hds]
      · rw [← h2]
        unfold Context.ownProperty
        rw [set_data_getObj_self, getObj_updateObj_self, getObj_bumpCalls,
          midCtx_getObj_fresh]
        simp [insertProp, lookupProp]

theorem refErrC2_message_property_witness :
    ∃ s, displayString (JsValue.string "boom") ctx0 = Except.ok s ∧
      JsValue.object 6 = JsValue.object ctx0.heap.length ∧
      ((ReferenceError.constructor JsValue.undefined [JsValue.string "boom"] ctx0).2).ownProperty
          ctx0.heap.length "message"
        = some ⟨PropertySlot.data (JsValue.string s), true, false, true⟩ :=
  refErrC2_message_property JsValue.undefined (JsValue.string "boom") [] ctx0
    (JsValue.object 6)
    (ReferenceError.constructor JsValue.undefined [JsValue.string "boom"] ctx0).2
    rfl rfl rfl

/-- Claim C7: init declares name and message as own data properties of
the prototype of the reference error entry, with values ReferenceError
and the empty string, and exactly the writable, non-enumerable,
configurable bits the intrinsic declares. -/
theorem refErrC7_init_prototype_properties (ctx : Context)
    (hp : ctx.standardObjects.reference_error_object.prototype < ctx.heap.length)
    (hd : ctx.standardObjects.reference_error_object.prototype
        ≠ ctx.standardObjects.reference_error_object.constructor) :
    ((ReferenceError.init ctx).2).ownProperty
        ctx.standardObjects.reference_error_object.prototype "name"
      = some ⟨PropertySlot.data (JsValue.string "ReferenceError"), true, false, true⟩ ∧
    ((ReferenceError.init ctx).2).ownProperty
        ctx.standardObjects.reference_error_object.prototype "message"
      = some ⟨PropertySlot.data (JsValue.string ""), true, false, true⟩ ∧
    ReferenceError.ATTRIBUTE = ⟨true, false, true⟩ := by
  have hcp : ctx.standardObjects.reference_error_object.constructor
      ≠ ctx.standardObjects.reference_error_object.prototype := Ne.symm hd
  obtain ⟨o0, ho0⟩ : ∃ o,
      ctx.getObj ctx.standardObjects.reference_error_object.prototype = some o :=
    ⟨_, List.getElem?_eq_getElem hp⟩
  have hobj : ((ReferenceError.init ctx).2).getObj
      ctx.standardObjects.reference_error_object.prototype
      = some { o0 with
          prototype := JsValue.object ctx.standardObjects.error_object.prototype,
          properties := insertProp (insertProp (insertProp o0.properties "name" ⟨PropertySlot.data (JsValue.string "ReferenceError"), true, false, true⟩) "message" ⟨PropertySlot.data (JsValue.string ""), true, false, true⟩) "constructor" ⟨PropertySlot.data (JsValue.object ctx.standardObjects.reference_error_object.constructor), true, false, true⟩ } := by
    rw [init_eval]
    rw [getObj_updateObj_ne _ _ _ _ hcp]
    rw [getObj_defineProperty_ne _ _ _ _ _ _ hcp]
    rw [getObj_defineProperty_ne _ _ _ _ _ _ hcp]
    rw [getObj_defineProperty_ne _ _ _ _ _ _ hcp]
    rw [getObj_defineProperty_self]
    rw [getObj_defineProperty_self]
    rw [getObj_defineProperty_self]
    rw [getObj_updateObj_self]
    rw [ho0]
    rfl
  refine ⟨?_, ?_, rfl⟩
  · unfold Context.ownProperty
    rw [hobj]
    show lookupProp _ "name" = _
    rw [lookup_insert_ne _ _ _ _ (by decide), lookup_insert_ne _ _ _ _ (by decide),
      lookup_insert_self]
  · unfold Context.ownProperty
    rw [hobj]
    show lookupProp _ "message" = _
    rw [lookup_insert_ne _ _ _ _ (by decide), lookup_insert_self]

theorem refErrC7_init_prototype_properties_witness :
    ((ReferenceError.init ctx0).2).ownProperty 4 "name"
        = some ⟨PropertySlot.data (JsValue.string "ReferenceError"), true, false, true⟩ ∧
      ((ReferenceError.init ctx0).2).ownProperty 4 "message"
        = some ⟨PropertySlot.data (JsValue.string ""), true, false, true⟩ ∧
      ReferenceError.ATTRIBUTE = ⟨true, false, true⟩ :=
  refErrC7_init_prototype_properties ctx0 (by decide) (by decide)

/-- Claim C8: init builds with the base error prototype as parent, so the
reference error prototype's internal parent link is the base error
prototype, and any other object of the realm, in particular the base
error prototype itself with its own link to the root prototype, keeps
its link. -/
theorem refErrC8_init_parent_link (ctx : Context)
    (hp : ctx.standardObjects.reference_error_object.prototype < ctx.heap.length)
    (hd : ctx.standardObjects.reference_error_object.prototype
        ≠ ctx.standardObjects.reference_error_object.constructor) :
    (((ReferenceError.init ctx).2).getObj
          ctx.standardObjects.reference_error_object.prototype).map (fun o => o.prototype)
        = some (JsValue.object ctx.standardObjects.error_object.prototype) ∧
      (ctx.standardObjects.error_object.prototype
          ≠ ctx.standardObjects.reference_error_object.prototype →
        ctx.standardObjects.error_object.prototype
          ≠ ctx.standardObjects.reference_error_object.constructor →
        (((ReferenceError.init ctx).2).getObj
            ctx.standardObjects.error_object.prototype).map (fun o => o.prototype)
          = (ctx.getObj ctx.standardObjects.error_object.prototype).map
              (fun o => o.prototype)) := by
  have hcp : ctx.standardObjects.reference_error_object.constructor
      ≠ ctx.standardObjects.reference_error_object.prototype := Ne.symm hd
  obtain ⟨o0, ho0⟩ : ∃ o,
      ctx.getObj ctx.standardObjects.reference_error_object.prototype = some o :=
    ⟨_, List.getElem?_eq_getElem hp⟩
  constructor
  · rw [init_eval]
    rw [getObj_updateObj_ne _ _ _ _ hcp]
    rw [getObj_defineProperty_ne _ _ _ _ _ _ hcp]
    rw [getObj_defineProperty_ne _ _ _ _ _ _ hcp]
    rw [getObj_defineProperty_ne _ _ _ _ _ _ hcp]
    rw [getObj_defineProperty_self]
    rw [getObj_defineProperty_self]
    rw [getObj_defineProperty_self]
    rw [getObj_updateObj_self]
    rw [ho0]
    rfl
  · intro hep hec
    have hpe : ctx.standardObjects.reference_error_object.prototype
        ≠ ctx.standardObjects.error_object.prototype := Ne.symm hep
    have hce : ctx.standardObjects.reference_error_object.constructor
        ≠ ctx.standardObjects.error_object.prototype := Ne.symm hec
    rw [init_eval]
    rw [getObj_updateObj_ne _ _ _ _ hce]
    rw [getObj_defineProperty_ne _ _ _ _ _ _ hce]
    rw [getObj_defineProperty_ne _ _ _ _ _ _ hce]
    rw [getObj_defineProperty_ne _ _ _ _ _ _ hce]
    rw [getObj_defineProperty_ne _ _ _ _ _ _ hpe]
    rw [getObj_defineProperty_ne _ _ _ _ _ _ hpe]
    rw [getObj_defineProperty_ne _ _ _ _ _ _ hpe]
    rw [getObj_updateObj_ne _ _ _ _ hpe]

theorem refErrC8_init_parent_link_witness :
    (((ReferenceError.init ctx0).2).getObj 4).map (fun o => o.prototype)
        = some (JsValue.object 2) ∧
      (((ReferenceError.init ctx0).2).getObj 2).map (fun o => o.prototype)
        = some (JsValue.object 0) := by
  have h := refErrC8_init_parent_link ctx0 (by decide) (by decide)
  refine ⟨h.1, ?_⟩
  have h2 := h.2 (by decide) (by decide)
  exact h2.trans (by rfl)

/-- Claim C9: init returns the built constructor object of the reference
error entry, and that constructor reports name ReferenceError and arity
one to script. -/
theorem refErrC9_init_returns_constructor (ctx : Context)
    (hc : ctx.standardObjects.reference_error_object.constructor < ctx.heap.length)
    (hd : ctx.standardObjects.reference_error_object.prototype
        ≠ ctx.standardObjects.reference_error_object.constructor) :
    (ReferenceError.init ctx).1
        = JsValue.object ctx.standardObjects.reference_error_object.constructor ∧
      ((ReferenceError.init ctx).2).ownProperty
          ctx.standardObjects.reference_error_object.constructor "name"
        = some ⟨PropertySlot.data (JsValue.string "ReferenceError"), false, false, true⟩ ∧
      ((ReferenceError.init ctx).2).ownProperty
          ctx.standardObjects.reference_error_object.constructor "length"
        = some ⟨PropertySlot.data (JsValue.integer 1), false, false, true⟩ ∧
      ReferenceError.LENGTH = 1 := by
  obtain ⟨oc, hoc⟩ : ∃ o,
      ctx.getObj ctx.standardObjects.reference_error_object.constructor = some o :=
    ⟨_, List.getElem?_eq_getElem hc⟩
  have hobj : ((ReferenceError.init ctx).2).getObj
      ctx.standardObjects.reference_error_object.constructor
      = some { oc with
          properties := insertProp (insertProp (insertProp oc.properties "prototype" ⟨PropertySlot.data (JsValue.object ctx.standardObjects.reference_error_object.prototype), false, false, false⟩) "name" ⟨PropertySlot.data (JsValue.string "ReferenceError"), false, false, true⟩) "length" ⟨PropertySlot.data (JsValue.integer 1), false, false, true⟩,
          constructible := true } := by
    rw [init_eval]
    rw [getObj_updateObj_self]
    rw [getObj_defineProperty_self]
    rw [getObj_defineProperty_self]
    rw [getObj_defineProperty_self]
    rw [getObj_defineProperty_ne _ _ _ _ _ _ hd]
    rw [getObj_defineProperty_ne _ _ _ _ _ _ hd]
    rw [getObj_defineProperty_ne _ _ _ _ _ _ hd]
    rw [getObj_updateObj_ne _ _ _ _ hd]
    rw [hoc]
    rfl
  refine ⟨by rw [init_eval], ?_, ?_, rfl⟩
  · unfold Context.ownProperty
    rw [hobj]
    show lookupProp _ "name" = _
    rw [lookup_insert_ne _ _ _ _ (by decide), lookup_insert_self]
  · unfold Context.ownProperty
    rw [hobj]
    show lookupProp _ "length" = _
    rw [lookup_insert_self]

theorem refErrC9_init_returns_constructor_witness :
    (ReferenceError.init ctx0).1 = JsValue.object 5 ∧
      ((ReferenceError.init ctx0).2).ownProperty 5 "name"
        = some ⟨PropertySlot.data (JsValue.string "ReferenceError"), false, false, true⟩ ∧
      ((ReferenceError.init ctx0).2).ownProperty 5 "length"
        = some ⟨PropertySlot.data (JsValue.integer 1), false, false, true⟩ ∧
      ReferenceError.LENGTH = 1 :=
  refErrC9_init_returns_constructor ctx0 (by decide) (by decide)
